import Mathlib

/-!
Verification of the WynnExtras discord-bot core (bot.py): the tier-based
aspect score engine, the weekly reset window calculator, the expiring
caches and the pool aggregator.  Python ints are modelled as `Int`,
Python floats as `ℚ` (every constant in the source is an exact decimal,
and every arithmetic step the source performs on them is exact in IEEE
double as well), Python dicts as association lists with Python's
insertion-order update semantics, and fallible HTTP calls as `Option`
payloads (`none` models a non-200 response, which the source turns into
a `None` return value).
-/

namespace Wynn

/-- Python's `str.lower()` as used on the ASCII rarity strings: lower-case
every character (written structurally over the string's character list so
that proofs can evaluate it). -/
def pyLower (s : String) : String := ⟨s.data.map Char.toLower⟩

/-- Tier thresholds for each rarity (bot.py, `TIER_THRESHOLDS`). -/
def TIER_THRESHOLDS : List (String × List Int) :=
  [("mythic", [1, 5, 15]),
   ("fabled", [1, 15, 75]),
   ("legendary", [1, 5, 30, 150])]

/-- Tier weights keyed by `{rarity}_{current_tier}_{target_tier}`
(bot.py, `TIER_WEIGHTS`). -/
def TIER_WEIGHTS : List (String × ℚ) :=
  [("mythic_1_2", 13.55),
   ("mythic_2_3", 10.00),
   ("mythic_1_1", 13.55),
   ("mythic_2_2", 10.0),
   ("fabled_1_2", 0.65),
   ("fabled_2_3", 0.5),
   ("fabled_1_1", 6.05),
   ("fabled_2_2", 0.50),
   ("legendary_1_2", 13.0),
   ("legendary_2_3", 1.5),
   ("legendary_3_4", 0.905),
   ("legendary_1_1", 13.0),
   ("legendary_2_2", 5.0),
   ("legendary_3_3", 1.5),
   ("legendary_4_4", 0.905)]

/-- Max amounts for each rarity (bot.py, `MAX_AMOUNTS`). -/
def MAX_AMOUNTS : List (String × Int) :=
  [("Mythic", 15), ("Fabled", 75), ("Legendary", 150)]

/-- The `for i, threshold in enumerate(thresholds): if amount < threshold:
break; current_tier = i + 1` loop of `get_tier_info`, with the second
argument the enumeration index `i` and the third the `current_tier`
accumulator (initially 1). -/
def tierLoop (amount : Int) : List Int → Nat → Nat → Nat
  | [], _, current_tier => current_tier
  | threshold :: rest, i, current_tier =>
    if amount < threshold then current_tier
    else tierLoop amount rest (i + 1) (i + 1)

/-- bot.py `get_tier_info(rarity, amount)`: returns
`(current_tier, target_tier, remaining_in_tier)`.  `thresholds[-1]` is
`List.getLast!`, `thresholds[current_tier]` is `List.get!`; the source's
unused `tier_start` locals are omitted. -/
def get_tier_info (rarity : String) (amount : Int) : Nat × Nat × Int :=
  let thresholds := (TIER_THRESHOLDS.lookup (pyLower rarity)).getD [1, 15, 75]
  let max_amount := thresholds.getLast!
  if amount ≥ max_amount then (0, 0, 0)
  else
    let current_tier := tierLoop amount thresholds 0 1
    if current_tier < thresholds.length then
      (current_tier, current_tier + 1, thresholds.get! current_tier - amount)
    else
      (current_tier, current_tier, max_amount - amount)

/-- bot.py `get_tier_weight(rarity, current_tier, target_tier)`. -/
def get_tier_weight (rarity : String) (current_tier target_tier : Nat) : ℚ :=
  let key := pyLower rarity ++ "_" ++ toString current_tier ++ "_" ++ toString target_tier
  (TIER_WEIGHTS.lookup key).getD 1

/-- bot.py `get_remaining_to_max(rarity, amount)`. -/
def get_remaining_to_max (rarity : String) (amount : Int) : Int :=
  max 0 ((MAX_AMOUNTS.lookup rarity).getD 999 - amount)

/-- bot.py `calculate_aspect_score(rarity, amount)`. -/
def calculate_aspect_score (rarity : String) (amount : Int) : ℚ :=
  let max_amt := (MAX_AMOUNTS.lookup rarity).getD 999
  if amount ≥ max_amt then 0
  else
    let info := get_tier_info rarity amount
    if info.1 = 0 then 0
    else (info.2.2 : ℚ) * get_tier_weight rarity info.1 info.2.1

/-- bot.py `get_weekly_reset_times()`, as a pure function of the current
time.  `now` is the number of seconds, in the fixed UTC+1 offset the
source uses for CET, since an epoch that falls on a Monday 00:00 local
time, so `weekday = (now / 86400) mod 7` (Monday = 0, as in Python) and
`hour = (now mod 86400) / 3600`; `Int.ediv`/`Int.emod` match Python's
floor division and nonnegative modulo.  `replace(hour=19, minute=0,
second=0, microsecond=0)` becomes flooring to the day and adding 19
hours; the source's final conversion of both datetimes to Unix
timestamps subtracts the same fixed offset from each, which this model
leaves out since it shifts `last`, `next` and `now` equally. -/
def get_weekly_reset_times (now : Int) : Int × Int :=
  let weekday := (now.ediv 86400).emod 7
  let hour := (now.emod 86400).ediv 3600
  let days_since_friday0 := (weekday - 4).emod 7
  let days_since_friday :=
    if days_since_friday0 = 0 ∧ hour < 19 then 7 else days_since_friday0
  let last_friday := ((now - days_since_friday * 86400).ediv 86400) * 86400 + 19 * 3600
  let next_friday := last_friday + 7 * 86400
  (last_friday, next_friday)

/-- bot.py `LOOTRUN_TYPES`. -/
def LOOTRUN_TYPES : List String := ["SE", "SI", "MH", "CORK", "COTL"]

/-- One item of a lootrun pool payload; only passed through by the
aggregation code modelled here. -/
structure LootItem where
  name : String
  rarity : String
deriving DecidableEq

/-- A parsed pool payload as the aggregator sees it: `items` is `some`
exactly when the JSON object has an `items` key. -/
structure PoolResp where
  items : Option (List LootItem)
deriving DecidableEq

/-- `asyncio.gather` with the default `return_exceptions=False`
re-raises as soon as any branch raised: true iff some per-type outcome
is an escaped exception.  An outcome `Except.error ()` models an
exception escaping `fetch_lootrun_pool` (transport error or JSON-decode
failure — the source has no try/except), `Except.ok none` a non-200
response (which the source returns as `None`), and `Except.ok (some
resp)` a parsed 200 response. -/
def gatherRaised : List (Except Unit (Option PoolResp)) → Bool
  | [] => false
  | Except.error _ :: _ => true
  | Except.ok _ :: rest => gatherRaised rest

/-- bot.py `fetch_all_lootrun_pools`: `results` is the list of outcomes
of the per-type `fetch_lootrun_pool` calls (in `LOOTRUN_TYPES` order, as
`gather` preserves order).  If any branch raised, `asyncio.gather`
re-raises and the whole call raises (`Except.error ()`); otherwise the
loop `for lr_type, data in zip(LOOTRUN_TYPES, results): if data and
"items" in data: all_pools[lr_type] = data["items"]` builds the result
dict in insertion order. -/
def fetch_all_lootrun_pools (results : List (Except Unit (Option PoolResp))) :
    Except Unit (List (String × List LootItem)) :=
  if gatherRaised results then Except.error ()
  else
    Except.ok ((LOOTRUN_TYPES.zip results).foldl
      (fun all_pools p =>
        match p.2 with
        | Except.ok (some data) =>
          match data.items with
          | some items => all_pools ++ [(p.1, items)]
          | none => all_pools
        | _ => all_pools) [])

/-- Python dict assignment `m[k] = v`: overwrite in place if the key is
present, else append. -/
def dictUpdate {β : Type} (m : List (String × β)) (k : String) (v : β) :
    List (String × β) :=
  if m.any (fun p => p.1 == k) then
    m.map (fun p => if p.1 == k then (k, v) else p)
  else m ++ [(k, v)]

/-- bot.py `ASPECT_CACHE_TTL` (1 hour). -/
def ASPECT_CACHE_TTL : Int := 3600

/-- The `classes` list of `get_aspect_class_mapping`. -/
def aspectClasses : List String :=
  ["warrior", "mage", "archer", "assassin", "shaman"]

/-- The mapping-building loop of bot.py `get_aspect_class_mapping`: one
request per class; a successful response contributes
`mapping[aspect_name] = class_name` for each of its aspect names (in
key order); a failed request (exception or non-200, modelled as `none`)
contributes nothing. -/
def build_aspect_mapping (responses : String → Option (List String)) :
    List (String × String) :=
  aspectClasses.foldl
    (fun mapping class_name =>
      match responses class_name with
      | some data =>
        data.foldl (fun m aspect_name => dictUpdate m aspect_name class_name) mapping
      | none => mapping) []

/-- The module-level `_aspect_class_cache` / `_aspect_cache_time` pair. -/
structure AspectCacheState where
  cache : List (String × String)
  time : Int
deriving DecidableEq

/-- bot.py `get_aspect_class_mapping()`, with the global state, the clock
and the per-class upstream responses made explicit; returns the value
the call returns together with the state it leaves behind.  Mirrors the
source: serve the cache while it is nonempty and fresh; otherwise
rebuild, commit the new mapping and timestamp only `if mapping:` is
nonempty, and return the freshly built `mapping` either way. -/
def get_aspect_class_mapping (st : AspectCacheState) (now : Int)
    (responses : String → Option (List String)) :
    List (String × String) × AspectCacheState :=
  if st.cache ≠ [] ∧ now - st.time < ASPECT_CACHE_TTL then (st.cache, st)
  else
    let mapping := build_aspect_mapping responses
    if mapping ≠ [] then (mapping, ⟨mapping, now⟩)
    else (mapping, st)

/-- bot.py `LOOTRUN_POOL_CACHE_TTL` (5 minutes). -/
def LOOTRUN_POOL_CACHE_TTL : Int := 300

/-- The module-level `_lootrun_pool_cache` / `_lootrun_pool_cache_time`
pair. -/
structure LootrunCacheState where
  cache : List (String × PoolResp)
  time : List (String × Int)
deriving DecidableEq

/-- bot.py `fetch_lootrun_pool(lootrun_type)` with the global cache
state, the clock and the upstream HTTP outcome made explicit
(`upstream = none` models a non-200 status, which the source turns into
`return None`).  Mirrors the source: on a cached key whose entry is
younger than the TTL return the cached data; otherwise fetch, and on
success store data and timestamp under `"lootrun_" + lootrun_type`. -/
def fetch_lootrun_pool (st : LootrunCacheState) (now : Int)
    (upstream : Option PoolResp) (lootrun_type : String) :
    Option PoolResp × LootrunCacheState :=
  let cache_key := "lootrun_" ++ lootrun_type
  match st.cache.lookup cache_key with
  | some cached =>
    let cache_time := (st.time.lookup cache_key).getD 0
    if now - cache_time < LOOTRUN_POOL_CACHE_TTL then (some cached, st)
    else
      match upstream with
      | some data =>
        (some data, ⟨dictUpdate st.cache cache_key data, dictUpdate st.time cache_key now⟩)
      | none => (none, st)
  | none =>
    match upstream with
    | some data =>
      (some data, ⟨dictUpdate st.cache cache_key data, dictUpdate st.time cache_key now⟩)
    | none => (none, st)

/-- A concrete upstream used to exercise `fetch_all_lootrun_pools`: the
fetch for type "MH" fails with a non-200 response, every other type
succeeds with one mythic item. -/
def c5Upstream : String → Except Unit (Option PoolResp) :=
  fun t =>
    if t = "MH" then Except.ok none
    else Except.ok (some ⟨some [⟨"Sundering Aspect", "Mythic"⟩]⟩)

/-- A concrete upstream where the fetch for type "MH" raises (transport
or JSON-decode exception) and every other type succeeds. -/
def c5RaisingUpstream : String → Except Unit (Option PoolResp) :=
  fun t =>
    if t = "MH" then Except.error ()
    else Except.ok (some ⟨some [⟨"Sundering Aspect", "Mythic"⟩]⟩)

/-- A concrete cached pool payload. -/
def respA : PoolResp := ⟨some []⟩

/-- A concrete freshly fetched pool payload. -/
def respB : PoolResp := ⟨none⟩

/-- A concrete lootrun cache state holding a snapshot for type "SE"
stored at time 0. -/
def poolState0 : LootrunCacheState :=
  ⟨[("lootrun_SE", respA)], [("lootrun_SE", 0)]⟩

/-! ## Helper lemmas -/

/-- Evaluating `calculate_aspect_score` in the non-maxed branch. -/
theorem score_eval (r : String) (a : Int) (ct tt : Nat) (rem m : Int)
    (hm : (MAX_AMOUNTS.lookup r).getD 999 = m) (ha : ¬ a ≥ m)
    (hinfo : get_tier_info r a = (ct, tt, rem)) (hct : ct ≠ 0) :
    calculate_aspect_score r a = (rem : ℚ) * get_tier_weight r ct tt := by
  simp only [calculate_aspect_score, hm, if_neg ha, hinfo]
  simp [hct]

/-- `calculate_aspect_score` is 0 whenever `get_tier_info` reports the
maxed sentinel. -/
theorem score_of_tier_zero (r : String) (a : Int)
    (h : (get_tier_info r a).1 = 0) : calculate_aspect_score r a = 0 := by
  simp only [calculate_aspect_score]
  split_ifs <;> simp_all

/-- Any key's lookup in `TIER_THRESHOLDS` (with the source's default)
yields one of the three configured tables; the default coincides with
the fabled table. -/
theorem thresholds_cases (s : String) :
    (TIER_THRESHOLDS.lookup s).getD [1, 15, 75] = [1, 5, 15] ∨
    (TIER_THRESHOLDS.lookup s).getD [1, 15, 75] = [1, 15, 75] ∨
    (TIER_THRESHOLDS.lookup s).getD [1, 15, 75] = [1, 5, 30, 150] := by
  by_cases h1 : s = "mythic"
  · subst h1; left; rfl
  by_cases h2 : s = "fabled"
  · subst h2; right; left; rfl
  by_cases h3 : s = "legendary"
  · subst h3; right; right; rfl
  · right; left
    have b1 : (s == "mythic") = false := beq_eq_false_iff_ne.mpr h1
    have b2 : (s == "fabled") = false := beq_eq_false_iff_ne.mpr h2
    have b3 : (s == "legendary") = false := beq_eq_false_iff_ne.mpr h3
    simp [TIER_THRESHOLDS, List.lookup, b1, b2, b3]

/-- Any key's lookup in `MAX_AMOUNTS` (with the source's default) yields
15, 75, 150 or 999; in particular it is at least 15. -/
theorem max_amount_ge_15 (r : String) : 15 ≤ (MAX_AMOUNTS.lookup r).getD 999 := by
  by_cases h1 : r = "Mythic"
  · subst h1; decide
  by_cases h2 : r = "Fabled"
  · subst h2; decide
  by_cases h3 : r = "Legendary"
  · subst h3; decide
  · have b1 : (r == "Mythic") = false := beq_eq_false_iff_ne.mpr h1
    have b2 : (r == "Fabled") = false := beq_eq_false_iff_ne.mpr h2
    have b3 : (r == "Legendary") = false := beq_eq_false_iff_ne.mpr h3
    simp [MAX_AMOUNTS, List.lookup, b1, b2, b3]

/-- A lookup with default in a list of nonnegative rationals is
nonnegative. -/
theorem lookup_rat_nonneg (l : List (String × ℚ)) (hl : ∀ p ∈ l, 0 ≤ p.2)
    (k : String) (d : ℚ) (hd : 0 ≤ d) : 0 ≤ (l.lookup k).getD d := by
  induction l with
  | nil => simpa using hd
  | cons p t ih =>
    obtain ⟨k', v⟩ := p
    rw [List.lookup]
    cases h : k == k'
    · exact ih fun q hq => hl q (List.mem_cons_of_mem _ hq)
    · simpa using hl (k', v) (List.mem_cons_self _ _)

/-- Every tier weight the source can produce is nonnegative (all table
entries are positive and the fallback is 1.0). -/
theorem tier_weight_nonneg (r : String) (c t : Nat) : 0 ≤ get_tier_weight r c t := by
  unfold get_tier_weight
  refine lookup_rat_nonneg _ ?_ _ _ (by norm_num)
  intro p hp
  fin_cases hp <;> norm_num

/-- Shape of `get_tier_info` for a rarity resolving to the mythic
table. -/
theorem tier_info_form_mythic (r : String)
    (h : (TIER_THRESHOLDS.lookup (pyLower r)).getD [1, 15, 75] = [1, 5, 15])
    (a : Int) :
    get_tier_info r a =
      if 15 ≤ a then (0, 0, 0)
      else if a < 5 then (1, 2, 5 - a) else (2, 3, 15 - a) := by
  have e1 : (([1, 5, 15] : List Int)).getLast! = 15 := by decide
  have e3 : (([1, 5, 15] : List Int)).get! 1 = 5 := by decide
  have e4 : (([1, 5, 15] : List Int)).get! 2 = 15 := by decide
  simp only [get_tier_info, h, e1, tierLoop, ge_iff_le, List.length_cons,
    List.length_nil]
  split_ifs <;> simp_all [e3, e4, Prod.ext_iff] <;> try omega

/-- Shape of `get_tier_info` for a rarity resolving to the fabled table
(also the lookup default). -/
theorem tier_info_form_fabled (r : String)
    (h : (TIER_THRESHOLDS.lookup (pyLower r)).getD [1, 15, 75] = [1, 15, 75])
    (a : Int) :
    get_tier_info r a =
      if 75 ≤ a then (0, 0, 0)
      else if a < 15 then (1, 2, 15 - a) else (2, 3, 75 - a) := by
  have e1 : (([1, 15, 75] : List Int)).getLast! = 75 := by decide
  have e3 : (([1, 15, 75] : List Int)).get! 1 = 15 := by decide
  have e4 : (([1, 15, 75] : List Int)).get! 2 = 75 := by decide
  simp only [get_tier_info, h, e1, tierLoop, ge_iff_le, List.length_cons,
    List.length_nil]
  split_ifs <;> simp_all [e3, e4, Prod.ext_iff] <;> try omega

/-- Shape of `get_tier_info` for a rarity resolving to the legendary
table. -/
theorem tier_info_form_legendary (r : String)
    (h : (TIER_THRESHOLDS.lookup (pyLower r)).getD [1, 15, 75] = [1, 5, 30, 150])
    (a : Int) :
    get_tier_info r a =
      if 150 ≤ a then (0, 0, 0)
      else if a < 5 then (1, 2, 5 - a)
      else if a < 30 then (2, 3, 30 - a) else (3, 4, 150 - a) := by
  have e1 : (([1, 5, 30, 150] : List Int)).getLast! = 150 := by decide
  have e3 : (([1, 5, 30, 150] : List Int)).get! 1 = 5 := by decide
  have e4 : (([1, 5, 30, 150] : List Int)).get! 2 = 30 := by decide
  have e5 : (([1, 5, 30, 150] : List Int)).get! 3 = 150 := by decide
  simp only [get_tier_info, h, e1, tierLoop, ge_iff_le, List.length_cons,
    List.length_nil]
  split_ifs <;> simp_all [e3, e4, e5, Prod.ext_iff] <;> omega

/-- The remaining count reported by `get_tier_info` is nonnegative. -/
theorem tier_remaining_nonneg (r : String) (a : Int) :
    0 ≤ (get_tier_info r a).2.2 := by
  rcases thresholds_cases (pyLower r) with h | h | h
  · rw [tier_info_form_mythic r h a]; split_ifs <;> simp <;> omega
  · rw [tier_info_form_fabled r h a]; split_ifs <;> simp <;> omega
  · rw [tier_info_form_legendary r h a]; split_ifs <;> simp <;> omega

/-- Every score the source can produce is nonnegative. -/
theorem aspect_score_nonneg (r : String) (a : Int) :
    0 ≤ calculate_aspect_score r a := by
  simp only [calculate_aspect_score]
  split_ifs with h1 h2
  · exact le_refl 0
  · exact le_refl 0
  · exact mul_nonneg (by exact_mod_cast tier_remaining_nonneg r a)
      (tier_weight_nonneg r _ _)

/-! ## C1: the two concrete scoring scenarios -/

/-- C1: with the configured mythic threshold table [1,5,15] and weights
13.55 (tier 1→2) and 10.0 (tier 2→3), `tierInfo(mythic,0) = (1,2,5)` and
`aspectScore(mythic,0) = 67.75`, `tierInfo(mythic,10) = (2,3,5)` and
`aspectScore(mythic,10) = 50.0`, `aspectScore(mythic,15) = 0.0`; with the
fabled table [1,15,75] and weight 0.5 (tier 2→3),
`tierInfo(fabled,20) = (2,3,55)` and `aspectScore(fabled,20) = 27.5`. -/
theorem C1_scoring_scenarios :
    get_tier_info ("mythic") 0 = (1, 2, 5) ∧
    calculate_aspect_score ("mythic") 0 = 67.75 ∧
    get_tier_info ("mythic") 10 = (2, 3, 5) ∧
    calculate_aspect_score ("mythic") 10 = 50.0 ∧
    calculate_aspect_score ("mythic") 15 = 0.0 ∧
    get_tier_info ("fabled") 20 = (2, 3, 55) ∧
    calculate_aspect_score ("fabled") 20 = 27.5 := by
  refine ⟨by decide, ?_, by decide, ?_, ?_, by decide, ?_⟩
  · rw [score_eval ("mythic") 0 1 2 5 999 rfl (by norm_num) (by decide) (by decide),
      show get_tier_weight ("mythic") 1 2 = 13.55 from rfl]
    norm_num
  · rw [score_eval ("mythic") 10 2 3 5 999 rfl (by norm_num) (by decide) (by decide),
      show get_tier_weight ("mythic") 2 3 = 10.00 from rfl]
    norm_num
  · rw [score_of_tier_zero ("mythic") 15 (by decide)]
    norm_num
  · rw [score_eval ("fabled") 20 2 3 55 999 rfl (by norm_num) (by decide) (by decide),
      show get_tier_weight ("fabled") 2 3 = 0.5 from rfl]
    norm_num

/-- A successful lookup in `TIER_THRESHOLDS` yields one of the three
configured tables. -/
theorem lookup_thresholds_some (s : String) (ts : List Int)
    (h : TIER_THRESHOLDS.lookup s = some ts) :
    ts = [1, 5, 15] ∨ ts = [1, 15, 75] ∨ ts = [1, 5, 30, 150] := by
  by_cases h1 : s = "mythic"
  · subst h1
    rw [show TIER_THRESHOLDS.lookup ("mythic") = some [1, 5, 15] from rfl] at h
    exact Or.inl (Option.some.inj h).symm
  by_cases h2 : s = "fabled"
  · subst h2
    rw [show TIER_THRESHOLDS.lookup ("fabled") = some [1, 15, 75] from rfl] at h
    exact Or.inr (Or.inl (Option.some.inj h).symm)
  by_cases h3 : s = "legendary"
  · subst h3
    rw [show TIER_THRESHOLDS.lookup ("legendary") = some [1, 5, 30, 150] from rfl] at h
    exact Or.inr (Or.inr (Option.some.inj h).symm)
  · have b1 : (s == "mythic") = false := beq_eq_false_iff_ne.mpr h1
    have b2 : (s == "fabled") = false := beq_eq_false_iff_ne.mpr h2
    have b3 : (s == "legendary") = false := beq_eq_false_iff_ne.mpr h3
    simp [TIER_THRESHOLDS, List.lookup, b1, b2, b3] at h

/-! ## C3: scores are nonnegative, and zero at or above the rarity max -/

/-- C3: `aspectScore(rarity, amount)` is nonnegative for every rarity
string and every amount, and for every rarity with a configured max
(Mythic 15, Fabled 75, Legendary 150) it returns exactly 0 at or above
that max. -/
theorem C3_score_nonneg_and_zero_at_max :
    (∀ (r : String) (a : Int), 0 ≤ calculate_aspect_score r a) ∧
    (∀ (r : String) (m a : Int), MAX_AMOUNTS.lookup r = some m → m ≤ a →
      calculate_aspect_score r a = 0) := by
  refine ⟨aspect_score_nonneg, ?_⟩
  intro r m a hm hma
  simp only [calculate_aspect_score, hm, Option.getD_some]
  rw [if_pos hma]

/-- Witness for C3 at concrete inputs: amount 3 of a Mythic aspect has a
nonnegative score, and amount 20 (past the Mythic max of 15) scores 0. -/
theorem C3_witness :
    0 ≤ calculate_aspect_score ("Mythic") 3 ∧
    calculate_aspect_score ("Mythic") 20 = 0 :=
  ⟨C3_score_nonneg_and_zero_at_max.1 ("Mythic") 3,
   C3_score_nonneg_and_zero_at_max.2 ("Mythic") 15 20 rfl (by norm_num)⟩

/-! ## C10: tier indexing is safe below the last threshold -/

/-- C10: for every rarity with a configured threshold table and every
amount with `0 ≤ amount <` the table's last threshold, `get_tier_info`
returns a current tier between 1 and `len − 1`, target tier
`current + 1`, and remaining `thresholds[current] − amount`, strictly
positive; the source's "working on final tier" branch (current tier
`= len`) never runs under this precondition, so no index is out of
range. -/
theorem C10_tier_index_safe (r : String) (ts : List Int)
    (hts : TIER_THRESHOLDS.lookup (pyLower r) = some ts) (a : Int)
    (h0 : 0 ≤ a) (hlt : a < ts.getLast!) :
    ∃ ct rem, get_tier_info r a = (ct, ct + 1, rem) ∧
      1 ≤ ct ∧ ct + 1 ≤ ts.length ∧ rem = ts.get! ct - a ∧ 0 < rem := by
  rcases lookup_thresholds_some _ _ hts with h | h | h <;> subst h
  · have hd : (TIER_THRESHOLDS.lookup (pyLower r)).getD [1, 15, 75] = [1, 5, 15] := by
      rw [hts]
      rfl
    rw [show (([1, 5, 15] : List Int)).getLast! = 15 from by decide] at hlt
    rw [tier_info_form_mythic r hd a, if_neg (by omega)]
    by_cases h5 : a < 5
    · rw [if_pos h5]
      exact ⟨1, 5 - a, rfl, le_refl 1, by decide,
        by rw [show (([1, 5, 15] : List Int)).get! 1 = 5 from by decide], by omega⟩
    · rw [if_neg h5]
      exact ⟨2, 15 - a, rfl, by norm_num, by decide,
        by rw [show (([1, 5, 15] : List Int)).get! 2 = 15 from by decide], by omega⟩
  · have hd : (TIER_THRESHOLDS.lookup (pyLower r)).getD [1, 15, 75] = [1, 15, 75] := by
      rw [hts]
      rfl
    rw [show (([1, 15, 75] : List Int)).getLast! = 75 from by decide] at hlt
    rw [tier_info_form_fabled r hd a, if_neg (by omega)]
    by_cases h15 : a < 15
    · rw [if_pos h15]
      exact ⟨1, 15 - a, rfl, le_refl 1, by decide,
        by rw [show (([1, 15, 75] : List Int)).get! 1 = 15 from by decide], by omega⟩
    · rw [if_neg h15]
      exact ⟨2, 75 - a, rfl, by norm_num, by decide,
        by rw [show (([1, 15, 75] : List Int)).get! 2 = 75 from by decide], by omega⟩
  · have hd : (TIER_THRESHOLDS.lookup (pyLower r)).getD [1, 15, 75] = [1, 5, 30, 150] := by
      rw [hts]
      rfl
    rw [show (([1, 5, 30, 150] : List Int)).getLast! = 150 from by decide] at hlt
    rw [tier_info_form_legendary r hd a, if_neg (by omega)]
    by_cases h5 : a < 5
    · rw [if_pos h5]
      exact ⟨1, 5 - a, rfl, le_refl 1, by decide,
        by rw [show (([1, 5, 30, 150] : List Int)).get! 1 = 5 from by decide], by omega⟩
    by_cases h30 : a < 30
    · rw [if_neg h5, if_pos h30]
      exact ⟨2, 30 - a, rfl, by norm_num, by decide,
        by rw [show (([1, 5, 30, 150] : List Int)).get! 2 = 30 from by decide], by omega⟩
    · rw [if_neg h5, if_neg h30]
      exact ⟨3, 150 - a, rfl, by norm_num, by decide,
        by rw [show (([1, 5, 30, 150] : List Int)).get! 3 = 150 from by decide], by omega⟩

/-- Witness for C10 at rarity mythic with amount 7. -/
theorem C10_witness :
    ∃ ct rem, get_tier_info ("mythic") 7 = (ct, ct + 1, rem) ∧
      1 ≤ ct ∧ ct + 1 ≤ ([1, 5, 15] : List Int).length ∧
      rem = ([1, 5, 15] : List Int).get! ct - 7 ∧ 0 < rem :=
  C10_tier_index_safe ("mythic") [1, 5, 15] rfl 7 (by norm_num) (by decide)

/-! ## C2: monotonicity of the score in the amount -/

/-- Monotonicity step shared by the per-tier cases: two amounts in the
same tier (same current and target tier, remaining `e − a`) have scores
ordered opposite to the amounts. -/
theorem score_mono_step (r : String) (a1 a2 : Int) (ct tt : Nat) (e : Int)
    (g1 : get_tier_info r a1 = (ct, tt, e - a1))
    (g2 : get_tier_info r a2 = (ct, tt, e - a2))
    (hct : ct ≠ 0) (h12 : a1 ≤ a2)
    (hm1 : ¬ a1 ≥ (MAX_AMOUNTS.lookup r).getD 999)
    (hm2 : ¬ a2 ≥ (MAX_AMOUNTS.lookup r).getD 999) :
    calculate_aspect_score r a2 ≤ calculate_aspect_score r a1 := by
  rw [score_eval r a1 ct tt (e - a1) _ rfl hm1 g1 hct,
    score_eval r a2 ct tt (e - a2) _ rfl hm2 g2 hct]
  refine mul_le_mul_of_nonneg_right ?_ (tier_weight_nonneg r ct tt)
  exact_mod_cast (by omega : e - a2 ≤ e - a1)

/-- C2 counterexample: the claim "`aspectScore` is non-increasing in the
amount for a fixed rarity" fails at rarity mythic between amounts 4 and
5: the score jumps from 1 × 13.55 = 13.55 to 10 × 10.0 = 100.0 across
the tier-2 boundary. -/
theorem C2_counterexample :
    ¬ (calculate_aspect_score ("mythic") 5 ≤ calculate_aspect_score ("mythic") 4) := by
  have h4 : calculate_aspect_score ("mythic") 4 = 13.55 := by
    rw [score_eval ("mythic") 4 1 2 1 999 rfl (by norm_num) (by decide) (by decide),
      show get_tier_weight ("mythic") 1 2 = 13.55 from rfl]
    norm_num
  have h5 : calculate_aspect_score ("mythic") 5 = 100 := by
    rw [score_eval ("mythic") 5 2 3 10 999 rfl (by norm_num) (by decide) (by decide),
      show get_tier_weight ("mythic") 2 3 = 10.00 from rfl]
    norm_num
  rw [h4, h5]
  norm_num

/-- C2 amended: for a fixed rarity, `aspectScore` is non-increasing as
the amount increases while the current tier reported by `get_tier_info`
stays the same; across a tier boundary the score can increase (see the
counterexample). -/
theorem C2_monotone_within_tier (r : String) (a1 a2 : Int) (h12 : a1 ≤ a2)
    (hsame : (get_tier_info r a1).1 = (get_tier_info r a2).1) :
    calculate_aspect_score r a2 ≤ calculate_aspect_score r a1 := by
  by_cases hz : calculate_aspect_score r a2 = 0
  · rw [hz]
    exact aspect_score_nonneg r a1
  have hm2 : ¬ a2 ≥ (MAX_AMOUNTS.lookup r).getD 999 := by
    intro hge
    apply hz
    simp only [calculate_aspect_score]
    rw [if_pos hge]
  have hct2 : (get_tier_info r a2).1 ≠ 0 := fun h0 => hz (score_of_tier_zero r a2 h0)
  have hm1 : ¬ a1 ≥ (MAX_AMOUNTS.lookup r).getD 999 := fun hge => hm2 (le_trans hge h12)
  rcases thresholds_cases (pyLower r) with h | h | h
  · have f1 := tier_info_form_mythic r h a1
    have f2 := tier_info_form_mythic r h a2
    have h15 : ¬ 15 ≤ a2 := by
      intro hh
      apply hct2
      rw [f2, if_pos hh]
    by_cases h5 : a2 < 5
    · refine score_mono_step r a1 a2 1 2 5 ?_ ?_ (by norm_num) h12 hm1 hm2
      · rw [f1, if_neg (by omega), if_pos (by omega)]
      · rw [f2, if_neg h15, if_pos h5]
    · have g2 : get_tier_info r a2 = (2, 3, 15 - a2) := by
        rw [f2, if_neg h15, if_neg h5]
      have h5a : ¬ a1 < 5 := by
        intro hh
        have g1 : get_tier_info r a1 = (1, 2, 5 - a1) := by
          rw [f1, if_neg (by omega), if_pos hh]
        rw [g1, g2] at hsame
        simp at hsame
      refine score_mono_step r a1 a2 2 3 15 ?_ g2 (by norm_num) h12 hm1 hm2
      rw [f1, if_neg (by omega), if_neg h5a]
  · have f1 := tier_info_form_fabled r h a1
    have f2 := tier_info_form_fabled r h a2
    have h75 : ¬ 75 ≤ a2 := by
      intro hh
      apply hct2
      rw [f2, if_pos hh]
    by_cases h15 : a2 < 15
    · refine score_mono_step r a1 a2 1 2 15 ?_ ?_ (by norm_num) h12 hm1 hm2
      · rw [f1, if_neg (by omega), if_pos (by omega)]
      · rw [f2, if_neg h75, if_pos h15]
    · have g2 : get_tier_info r a2 = (2, 3, 75 - a2) := by
        rw [f2, if_neg h75, if_neg h15]
      have h15a : ¬ a1 < 15 := by
        intro hh
        have g1 : get_tier_info r a1 = (1, 2, 15 - a1) := by
          rw [f1, if_neg (by omega), if_pos hh]
        rw [g1, g2] at hsame
        simp at hsame
      refine score_mono_step r a1 a2 2 3 75 ?_ g2 (by norm_num) h12 hm1 hm2
      rw [f1, if_neg (by omega), if_neg h15a]
  · have f1 := tier_info_form_legendary r h a1
    have f2 := tier_info_form_legendary r h a2
    have h150 : ¬ 150 ≤ a2 := by
      intro hh
      apply hct2
      rw [f2, if_pos hh]
    by_cases h5 : a2 < 5
    · refine score_mono_step r a1 a2 1 2 5 ?_ ?_ (by norm_num) h12 hm1 hm2
      · rw [f1, if_neg (by omega), if_pos (by omega)]
      · rw [f2, if_neg h150, if_pos h5]
    by_cases h30 : a2 < 30
    · have g2 : get_tier_info r a2 = (2, 3, 30 - a2) := by
        rw [f2, if_neg h150, if_neg h5, if_pos h30]
      have h5a : ¬ a1 < 5 := by
        intro hh
        have g1 : get_tier_info r a1 = (1, 2, 5 - a1) := by
          rw [f1, if_neg (by omega), if_pos hh]
        rw [g1, g2] at hsame
        simp at hsame
      refine score_mono_step r a1 a2 2 3 30 ?_ g2 (by norm_num) h12 hm1 hm2
      rw [f1, if_neg (by omega), if_neg h5a, if_pos (by omega)]
    · have g2 : get_tier_info r a2 = (3, 4, 150 - a2) := by
        rw [f2, if_neg h150, if_neg h5, if_neg h30]
      have h5a : ¬ a1 < 5 := by
        intro hh
        have g1 : get_tier_info r a1 = (1, 2, 5 - a1) := by
          rw [f1, if_neg (by omega), if_pos hh]
        rw [g1, g2] at hsame
        simp at hsame
      have h30a : ¬ a1 < 30 := by
        intro hh
        have g1 : get_tier_info r a1 = (2, 3, 30 - a1) := by
          rw [f1, if_neg (by omega), if_neg h5a, if_pos hh]
        rw [g1, g2] at hsame
        simp at hsame
      refine score_mono_step r a1 a2 3 4 150 ?_ g2 (by norm_num) h12 hm1 hm2
      rw [f1, if_neg (by omega), if_neg h5a, if_neg h30a]

/-- Witness for the amended C2 at rarity mythic, amounts 6 ≤ 10 (both in
tier 2). -/
theorem C2_witness :
    calculate_aspect_score ("mythic") 10 ≤ calculate_aspect_score ("mythic") 6 :=
  C2_monotone_within_tier ("mythic") 6 10 (by norm_num) (by decide)

/-! ## C7: negative amounts are not clamped -/

/-- C7 counterexample: the claim that a negative amount is clamped to 0
before lookup fails at rarity mythic, amount −5: `get_tier_info` returns
(1, 2, 10) rather than (1, 2, 5) (and the score is 10 × 13.55 = 135.5
rather than 67.75). -/
theorem C7_counterexample :
    ¬ (calculate_aspect_score ("mythic") (-5) = calculate_aspect_score ("mythic") 0 ∧
       get_tier_info ("mythic") (-5) = get_tier_info ("mythic") 0) :=
  fun h => absurd h.2 (by decide)

/-- C7 amended: negative amounts are not clamped.  A negative amount `a`
selects the same tiers as amount 0 (current 1, target 2) but the
remaining count grows to `remaining(0) − a`, and the score grows
accordingly: `aspectScore(r, a) = aspectScore(r, 0) − a × weight(r,1,2)`. -/
theorem C7_negative_not_clamped (r : String) (a : Int) (ha : a ≤ 0) :
    get_tier_info r a = (1, 2, (get_tier_info r 0).2.2 - a) ∧
    calculate_aspect_score r a =
      calculate_aspect_score r 0 - (a : ℚ) * get_tier_weight r 1 2 := by
  have hm := max_amount_ge_15 r
  have hma : ¬ a ≥ (MAX_AMOUNTS.lookup r).getD 999 := by omega
  have hm0 : ¬ (0 : Int) ≥ (MAX_AMOUNTS.lookup r).getD 999 := by omega
  rcases thresholds_cases (pyLower r) with h | h | h
  · have ga : get_tier_info r a = (1, 2, 5 - a) := by
      rw [tier_info_form_mythic r h a, if_neg (by omega), if_pos (by omega)]
    have g0 : get_tier_info r 0 = (1, 2, 5) := by
      rw [tier_info_form_mythic r h 0, if_neg (by omega), if_pos (by omega)]
      norm_num
    refine ⟨by rw [ga, g0], ?_⟩
    rw [score_eval r a 1 2 (5 - a) _ rfl hma ga (by norm_num),
      score_eval r 0 1 2 5 _ rfl hm0 g0 (by norm_num)]
    push_cast
    ring
  · have ga : get_tier_info r a = (1, 2, 15 - a) := by
      rw [tier_info_form_fabled r h a, if_neg (by omega), if_pos (by omega)]
    have g0 : get_tier_info r 0 = (1, 2, 15) := by
      rw [tier_info_form_fabled r h 0, if_neg (by omega), if_pos (by omega)]
      norm_num
    refine ⟨by rw [ga, g0], ?_⟩
    rw [score_eval r a 1 2 (15 - a) _ rfl hma ga (by norm_num),
      score_eval r 0 1 2 15 _ rfl hm0 g0 (by norm_num)]
    push_cast
    ring
  · have ga : get_tier_info r a = (1, 2, 5 - a) := by
      rw [tier_info_form_legendary r h a, if_neg (by omega), if_pos (by omega)]
    have g0 : get_tier_info r 0 = (1, 2, 5) := by
      rw [tier_info_form_legendary r h 0, if_neg (by omega), if_pos (by omega)]
      norm_num
    refine ⟨by rw [ga, g0], ?_⟩
    rw [score_eval r a 1 2 (5 - a) _ rfl hma ga (by norm_num),
      score_eval r 0 1 2 5 _ rfl hm0 g0 (by norm_num)]
    push_cast
    ring

/-- Witness for the amended C7 at rarity mythic, amount −5. -/
theorem C7_witness :
    get_tier_info ("mythic") (-5) = (1, 2, (get_tier_info ("mythic") 0).2.2 - (-5)) ∧
    calculate_aspect_score ("mythic") (-5) =
      calculate_aspect_score ("mythic") 0 -
        ((-5 : Int) : ℚ) * get_tier_weight ("mythic") 1 2 :=
  C7_negative_not_clamped ("mythic") (-5) (by norm_num)

/-! ## C8: fallback for rarities with no configured tier table -/

/-- C8 counterexample: the claim that an unconfigured rarity falls back
to a single-tier table `[max]` with weight 1.0 (so that amount 0 scores
`max × 1.0 = 999`) fails at rarity "Rare": the source instead uses the
default table [1, 15, 75], so `get_tier_info` at amount 20 reports tier
(2, 3, 55) and amount 0 scores 15, not 999. -/
theorem C8_counterexample :
    get_tier_info ("Rare") 20 = (2, 3, 55) ∧
    calculate_aspect_score ("Rare") 0 = 15 ∧ (15 : ℚ) ≠ 999 * 1.0 := by
  refine ⟨by decide, ?_, by norm_num⟩
  rw [score_eval ("Rare") 0 1 2 15 999 rfl (by norm_num) (by decide) (by decide),
    show get_tier_weight ("Rare") 1 2 = 1 from rfl]
  norm_num

/-- C8 amended: a rarity with no configured tier table raises no error:
`get_tier_info` falls back to the default table [1, 15, 75] (the fabled
table), any tier-weight key absent from `TIER_WEIGHTS` falls back to
weight 1.0, and for such a rarity (absent from `MAX_AMOUNTS` and from
the weight table) amount 0 scores 15 × 1.0 = 15 — the remaining count to
the default table's second threshold, not `max × 1.0`. -/
theorem C8_default_table_fallback (r : String)
    (hts : TIER_THRESHOLDS.lookup (pyLower r) = none) :
    (∀ a, get_tier_info r a = get_tier_info ("fabled") a) ∧
    (∀ c t, TIER_WEIGHTS.lookup
        (pyLower r ++ "_" ++ toString c ++ "_" ++ toString t) = none →
      get_tier_weight r c t = 1) ∧
    (MAX_AMOUNTS.lookup r = none →
     TIER_WEIGHTS.lookup
        (pyLower r ++ "_" ++ toString (1 : ℕ) ++ "_" ++ toString (2 : ℕ)) = none →
      calculate_aspect_score r 0 = 15) := by
  have hd : (TIER_THRESHOLDS.lookup (pyLower r)).getD [1, 15, 75] = [1, 15, 75] := by
    rw [hts]
    rfl
  have hf : (TIER_THRESHOLDS.lookup (pyLower ("fabled"))).getD [1, 15, 75] = [1, 15, 75] := rfl
  have hw1 : ∀ c t, TIER_WEIGHTS.lookup
      (pyLower r ++ "_" ++ toString c ++ "_" ++ toString t) = none →
      get_tier_weight r c t = 1 := by
    intro c t hw
    simp only [get_tier_weight, hw, Option.getD_none]
  refine ⟨fun a => ?_, hw1, fun hm hw => ?_⟩
  · rw [tier_info_form_fabled r hd a, tier_info_form_fabled ("fabled") hf a]
  · have g0 : get_tier_info r 0 = (1, 2, 15) := by
      rw [tier_info_form_fabled r hd 0, if_neg (by omega), if_pos (by omega)]
      norm_num
    rw [score_eval r 0 1 2 15 999 (by rw [hm]; rfl) (by norm_num) g0 (by norm_num),
      hw1 1 2 hw]
    norm_num

/-- Witness for the amended C8 at rarity "Rare". -/
theorem C8_witness :
    get_tier_info ("Rare") 33 = get_tier_info ("fabled") 33 ∧
    calculate_aspect_score ("Rare") 0 = 15 :=
  ⟨(C8_default_table_fallback ("Rare") (by decide)).1 33,
   (C8_default_table_fallback ("Rare") (by decide)).2.2 (by decide) (by decide)⟩

/-! ## C4: the weekly reset window -/

/-- Euclidean division facts packaged for `omega`. -/
theorem edivFacts (x k : Int) (hk : 0 < k) :
    k * (x.ediv k) + x.emod k = x ∧ 0 ≤ x.emod k ∧ x.emod k < k :=
  ⟨Int.ediv_add_emod x k, Int.emod_nonneg x (by omega), Int.emod_lt_of_pos x hk⟩

/-- C4: for every time `now`, `get_weekly_reset_times` returns
`lastReset ≤ now < nextReset` with `nextReset − lastReset` exactly 7
days (604800 seconds); and when `now` falls on the anchor weekday
(Friday, weekday 4) at a local hour before 19, `lastReset` is the
previous week's Friday 19:00 (7 days back), not the same day's. -/
theorem C4_weekly_window (now : Int) :
    ((get_weekly_reset_times now).1 ≤ now ∧
     now < (get_weekly_reset_times now).2 ∧
     (get_weekly_reset_times now).2 - (get_weekly_reset_times now).1 = 604800) ∧
    ((now.ediv 86400).emod 7 = 4 → (now.emod 86400).ediv 3600 < 19 →
      (get_weekly_reset_times now).1 = (now.ediv 86400 - 7) * 86400 + 68400) := by
  obtain ⟨e1, e2, e3⟩ := edivFacts now 86400 (by norm_num)
  obtain ⟨f1, f2, f3⟩ := edivFacts (now.emod 86400) 3600 (by norm_num)
  obtain ⟨g1, g2, g3⟩ := edivFacts (now.ediv 86400) 7 (by norm_num)
  obtain ⟨k1, k2, k3⟩ := edivFacts ((now.ediv 86400).emod 7 - 4) 7 (by norm_num)
  obtain ⟨m1, m2, m3⟩ := edivFacts (now - 7 * 86400) 86400 (by norm_num)
  obtain ⟨n1, n2, n3⟩ :=
    edivFacts (now - ((now.ediv 86400).emod 7 - 4).emod 7 * 86400) 86400 (by norm_num)
  simp only [get_weekly_reset_times]
  constructor
  · split_ifs with h
    · obtain ⟨h1, h2⟩ := h
      omega
    · rw [not_and_or] at h
      rcases h with h | h <;> omega
  · intro hw hh
    rw [if_pos (⟨by omega, hh⟩ :
      ((now.ediv 86400).emod 7 - 4).emod 7 = 0 ∧ (now.emod 86400).ediv 3600 < 19)]
    omega

/-- Witness for C4 at `now` = Friday 18:00 of week 0 (day 4, second
64800): the last reset is the previous Friday 19:00. -/
theorem C4_witness :
    (get_weekly_reset_times 410400).1 = ((410400 : Int).ediv 86400 - 7) * 86400 + 68400 :=
  (C4_weekly_window 410400).2 (by decide) (by decide)

/-! ## C5: partial upstream failure in the pool aggregator -/

/-- C5 counterexample: the claim that one failing upstream fetch leaves
`fetch_all_lootrun_pools` returning, without raising, a mapping with the
other N − 1 types fails when the failure is an exception escaping
`fetch_lootrun_pool` (transport error or JSON-decode failure — the
source has no try/except): `asyncio.gather` re-raises it, so at this
concrete input — the "MH" fetch raising, the other four succeeding —
the whole call raises and no mapping is returned at all. -/
theorem C5_counterexample :
    fetch_all_lootrun_pools (LOOTRUN_TYPES.map c5RaisingUpstream) = Except.error () := by
  rfl

/-- C5 amended: when the aggregator fetches the N = 5 pool types and
exactly one type's upstream fetch fails with a non-200 response (which
`fetch_lootrun_pool` returns as `None`), `fetch_all_lootrun_pools`
returns, without raising, a mapping that has an entry for each of the
other N − 1 types and omits the failed type; but when that one type's
fetch fails by raising (transport or JSON-decode exception), the
exception propagates through `asyncio.gather` and the whole call raises
instead of returning a mapping. -/
theorem C5_partial_failure (f : String → Except Unit (Option PoolResp)) (tf : String)
    (htf : tf ∈ LOOTRUN_TYPES)
    (hok : ∀ t ∈ LOOTRUN_TYPES, t ≠ tf →
      ∃ r items, f t = Except.ok (some r) ∧ r.items = some items) :
    (f tf = Except.ok none →
      ∃ pools, fetch_all_lootrun_pools (LOOTRUN_TYPES.map f) = Except.ok pools ∧
        pools.lookup tf = none ∧
        ∀ t ∈ LOOTRUN_TYPES, t ≠ tf → (pools.lookup t).isSome) ∧
    (f tf = Except.error () →
      fetch_all_lootrun_pools (LOOTRUN_TYPES.map f) = Except.error ()) := by
  have hmem : tf = "SE" ∨ tf = "SI" ∨ tf = "MH" ∨ tf = "CORK" ∨ tf = "COTL" := by
    simpa [LOOTRUN_TYPES] using htf
  rcases hmem with rfl | rfl | rfl | rfl | rfl
  · obtain ⟨r2, i2, hf2, hi2⟩ := hok ("SI") (by decide) (by decide)
    obtain ⟨r3, i3, hf3, hi3⟩ := hok ("MH") (by decide) (by decide)
    obtain ⟨r4, i4, hf4, hi4⟩ := hok ("CORK") (by decide) (by decide)
    obtain ⟨r5, i5, hf5, hi5⟩ := hok ("COTL") (by decide) (by decide)
    refine ⟨fun hfail => ?_, fun hexc => ?_⟩
    · refine ⟨[("SI", i2), ("MH", i3), ("CORK", i4), ("COTL", i5)], ?_, ?_, ?_⟩
      · simp [fetch_all_lootrun_pools, gatherRaised, LOOTRUN_TYPES, hfail,
          hf2, hi2, hf3, hi3, hf4, hi4, hf5, hi5]
      · simp [List.lookup]
      · intro t ht hne
        have : t = "SE" ∨ t = "SI" ∨ t = "MH" ∨ t = "CORK" ∨ t = "COTL" := by
          simpa [LOOTRUN_TYPES] using ht
        rcases this with rfl | rfl | rfl | rfl | rfl
        · exact absurd rfl hne
        all_goals simp [List.lookup]
    · simp [fetch_all_lootrun_pools, gatherRaised, LOOTRUN_TYPES, hexc]
  · obtain ⟨r1, i1, hf1, hi1⟩ := hok ("SE") (by decide) (by decide)
    obtain ⟨r3, i3, hf3, hi3⟩ := hok ("MH") (by decide) (by decide)
    obtain ⟨r4, i4, hf4, hi4⟩ := hok ("CORK") (by decide) (by decide)
    obtain ⟨r5, i5, hf5, hi5⟩ := hok ("COTL") (by decide) (by decide)
    refine ⟨fun hfail => ?_, fun hexc => ?_⟩
    · refine ⟨[("SE", i1), ("MH", i3), ("CORK", i4), ("COTL", i5)], ?_, ?_, ?_⟩
      · simp [fetch_all_lootrun_pools, gatherRaised, LOOTRUN_TYPES, hfail,
          hf1, hi1, hf3, hi3, hf4, hi4, hf5, hi5]
      · simp [List.lookup]
      · intro t ht hne
        have : t = "SE" ∨ t = "SI" ∨ t = "MH" ∨ t = "CORK" ∨ t = "COTL" := by
          simpa [LOOTRUN_TYPES] using ht
        rcases this with rfl | rfl | rfl | rfl | rfl
        · simp [List.lookup]
        · exact absurd rfl hne
        all_goals simp [List.lookup]
    · simp [fetch_all_lootrun_pools, gatherRaised, LOOTRUN_TYPES, hexc, hf1]
  · obtain ⟨r1, i1, hf1, hi1⟩ := hok ("SE") (by decide) (by decide)
    obtain ⟨r2, i2, hf2, hi2⟩ := hok ("SI") (by decide) (by decide)
    obtain ⟨r4, i4, hf4, hi4⟩ := hok ("CORK") (by decide) (by decide)
    obtain ⟨r5, i5, hf5, hi5⟩ := hok ("COTL") (by decide) (by decide)
    refine ⟨fun hfail => ?_, fun hexc => ?_⟩
    · refine ⟨[("SE", i1), ("SI", i2), ("CORK", i4), ("COTL", i5)], ?_, ?_, ?_⟩
      · simp [fetch_all_lootrun_pools, gatherRaised, LOOTRUN_TYPES, hfail,
          hf1, hi1, hf2, hi2, hf4, hi4, hf5, hi5]
      · simp [List.lookup]
      · intro t ht hne
        have : t = "SE" ∨ t = "SI" ∨ t = "MH" ∨ t = "CORK" ∨ t = "COTL" := by
          simpa [LOOTRUN_TYPES] using ht
        rcases this with rfl | rfl | rfl | rfl | rfl
        · simp [List.lookup]
        · simp [List.lookup]
        · exact absurd rfl hne
        all_goals simp [List.lookup]
    · simp [fetch_all_lootrun_pools, gatherRaised, LOOTRUN_TYPES, hexc, hf1, hf2]
  · obtain ⟨r1, i1, hf1, hi1⟩ := hok ("SE") (by decide) (by decide)
    obtain ⟨r2, i2, hf2, hi2⟩ := hok ("SI") (by decide) (by decide)
    obtain ⟨r3, i3, hf3, hi3⟩ := hok ("MH") (by decide) (by decide)
    obtain ⟨r5, i5, hf5, hi5⟩ := hok ("COTL") (by decide) (by decide)
    refine ⟨fun hfail => ?_, fun hexc => ?_⟩
    · refine ⟨[("SE", i1), ("SI", i2), ("MH", i3), ("COTL", i5)], ?_, ?_, ?_⟩
      · simp [fetch_all_lootrun_pools, gatherRaised, LOOTRUN_TYPES, hfail,
          hf1, hi1, hf2, hi2, hf3, hi3, hf5, hi5]
      · simp [List.lookup]
      · intro t ht hne
        have : t = "SE" ∨ t = "SI" ∨ t = "MH" ∨ t = "CORK" ∨ t = "COTL" := by
          simpa [LOOTRUN_TYPES] using ht
        rcases this with rfl | rfl | rfl | rfl | rfl
        · simp [List.lookup]
        · simp [List.lookup]
        · simp [List.lookup]
        · exact absurd rfl hne
        · simp [List.lookup]
    · simp [fetch_all_lootrun_pools, gatherRaised, LOOTRUN_TYPES, hexc, hf1, hf2, hf3]
  · obtain ⟨r1, i1, hf1, hi1⟩ := hok ("SE") (by decide) (by decide)
    obtain ⟨r2, i2, hf2, hi2⟩ := hok ("SI") (by decide) (by decide)
    obtain ⟨r3, i3, hf3, hi3⟩ := hok ("MH") (by decide) (by decide)
    obtain ⟨r4, i4, hf4, hi4⟩ := hok ("CORK") (by decide) (by decide)
    refine ⟨fun hfail => ?_, fun hexc => ?_⟩
    · refine ⟨[("SE", i1), ("SI", i2), ("MH", i3), ("CORK", i4)], ?_, ?_, ?_⟩
      · simp [fetch_all_lootrun_pools, gatherRaised, LOOTRUN_TYPES, hfail,
          hf1, hi1, hf2, hi2, hf3, hi3, hf4, hi4]
      · simp [List.lookup]
      · intro t ht hne
        have : t = "SE" ∨ t = "SI" ∨ t = "MH" ∨ t = "CORK" ∨ t = "COTL" := by
          simpa [LOOTRUN_TYPES] using ht
        rcases this with rfl | rfl | rfl | rfl | rfl
        · simp [List.lookup]
        · simp [List.lookup]
        · simp [List.lookup]
        · simp [List.lookup]
        · exact absurd rfl hne
    · simp [fetch_all_lootrun_pools, gatherRaised, LOOTRUN_TYPES, hexc, hf1, hf2, hf3, hf4]

/-- Witness for the amended C5: with the "MH" fetch returning non-200
and the other four succeeding, the call returns a mapping that omits
"MH" and covers the other four types. -/
theorem C5_witness :
    ∃ pools,
      fetch_all_lootrun_pools (LOOTRUN_TYPES.map c5Upstream) = Except.ok pools ∧
      pools.lookup ("MH") = none ∧
      ∀ t ∈ LOOTRUN_TYPES, t ≠ "MH" → (pools.lookup t).isSome :=
  (C5_partial_failure c5Upstream ("MH") (by decide)
    (fun t _ hne =>
      ⟨⟨some [⟨"Sundering Aspect", "Mythic"⟩]⟩, [⟨"Sundering Aspect", "Mythic"⟩],
        by simp [c5Upstream, hne], rfl⟩)).1 rfl

/-! ## C6: the category-mapping cache on failed refresh -/

/-- When every per-class request fails, the freshly built mapping is
empty. -/
theorem build_aspect_mapping_all_fail (responses : String → Option (List String))
    (h : ∀ c ∈ aspectClasses, responses c = none) :
    build_aspect_mapping responses = [] := by
  have h1 := h ("warrior") (by decide)
  have h2 := h ("mage") (by decide)
  have h3 := h ("archer") (by decide)
  have h4 := h ("assassin") (by decide)
  have h5 := h ("shaman") (by decide)
  simp [build_aspect_mapping, aspectClasses, h1, h2, h3, h4, h5]

/-- C6 counterexample: with a previously committed mapping in state, an
expired TTL and an all-failing refresh, `get_aspect_class_mapping` does
NOT keep serving the previous mapping: the call returns the freshly
built empty mapping, not the stale one. -/
theorem C6_counterexample :
    (get_aspect_class_mapping ⟨[("Tempest", "warrior")], 0⟩ 3600 (fun _ => none)).1
      ≠ [("Tempest", "warrior")] := by
  decide

/-- C6 amended: when the TTL has expired (or nothing is cached) and no
per-class response succeeds, `get_aspect_class_mapping` returns the
empty freshly built mapping while leaving the state — the previously
committed mapping and the TTL timestamp — untouched, so the next call
retries immediately; the state's timestamp changes only when at least
one per-class response succeeded; and any committed mapping is built
wholesale from the responses alone, never merged into the old one. -/
theorem C6_failed_refresh (st : AspectCacheState) (now : Int)
    (responses : String → Option (List String)) :
    ((st.cache = [] ∨ now - st.time ≥ ASPECT_CACHE_TTL) →
      (∀ c ∈ aspectClasses, responses c = none) →
      get_aspect_class_mapping st now responses = ([], st)) ∧
    ((get_aspect_class_mapping st now responses).2.time ≠ st.time →
      ¬ (∀ c ∈ aspectClasses, responses c = none)) ∧
    ((get_aspect_class_mapping st now responses).2.cache = st.cache ∨
     (get_aspect_class_mapping st now responses).2.cache = build_aspect_mapping responses) := by
  simp only [get_aspect_class_mapping]
  refine ⟨?_, ?_, ?_⟩
  · intro hexp hall
    rw [if_neg ?hcond]
    case hcond =>
      rcases hexp with h | h
      · exact fun hc => absurd h hc.1
      · exact fun hc => absurd hc.2 (not_lt.mpr h)
    rw [build_aspect_mapping_all_fail responses hall]
    simp
  · split_ifs with h1 h2
    · intro hne
      exact absurd rfl hne
    · intro _ hall
      exact h2 (build_aspect_mapping_all_fail responses hall)
    · intro hne
      exact absurd rfl hne
  · split_ifs with h1 h2
    · left; rfl
    · right; rfl
    · left; rfl

/-- Witness for the amended C6: committed mapping for "Tempest", TTL
expired at time 3600, all-failing refresh — the call returns the empty
mapping and the state is unchanged. -/
theorem C6_witness :
    get_aspect_class_mapping ⟨[("Tempest", "warrior")], 0⟩ 3600 (fun _ => none) =
      ([], ⟨[("Tempest", "warrior")], 0⟩) :=
  (C6_failed_refresh ⟨[("Tempest", "warrior")], 0⟩ 3600 (fun _ => none)).1
    (Or.inr (by decide)) (fun _ _ => rfl)

/-! ## C9: the pool-data cache TTL -/

/-- Looking up the key just written by `dictUpdate` yields the new
value. -/
theorem lookup_dictUpdate {β : Type} (m : List (String × β)) (k : String) (v : β) :
    (dictUpdate m k v).lookup k = some v := by
  induction m with
  | nil => simp [dictUpdate, List.lookup]
  | cons p tl ih =>
    obtain ⟨k1, v1⟩ := p
    by_cases hk : k1 = k
    · subst hk
      simp [dictUpdate, List.lookup]
    · have hb : (k1 == k) = false := beq_eq_false_iff_ne.mpr hk
      have hb2 : (k == k1) = false := beq_eq_false_iff_ne.mpr fun he => hk he.symm
      by_cases ha : tl.any (fun q => q.1 == k)
      · have hdu : (tl.map fun q => if q.1 == k then (k, v) else q) = dictUpdate tl k v := by
          simp [dictUpdate, ha]
        simp only [dictUpdate, List.any_cons, hb, Bool.false_or, ha, if_pos,
          List.map_cons, List.lookup, hb2]
        rw [hdu]
        exact ih
      · have hdu : tl ++ [(k, v)] = dictUpdate tl k v := by
          simp [dictUpdate, ha]
        simp only [dictUpdate, List.any_cons, hb, Bool.false_or, ha, if_neg,
          List.cons_append, List.lookup, hb2]
        rw [hdu]
        exact ih

/-- C9: for the pool-data cache, with a snapshot `d` stored for a type's
key at time `t`: a fetch at `now` with `now − t` under the 5-minute TTL
returns the stored snapshot and leaves the state untouched, regardless
of what upstream would answer (no upstream contact); a fetch at
`now − t ≥ TTL` treats the entry as a miss and re-fetches: the result is
exactly the upstream answer, a failed re-fetch leaves the state
unchanged, and a successful one stores the new data and timestamp. -/
theorem C9_pool_cache_ttl (st : LootrunCacheState) (t now : Int) (d : PoolResp)
    (ty : String) (u : Option PoolResp)
    (hc : st.cache.lookup ("lootrun_" ++ ty) = some d)
    (ht : st.time.lookup ("lootrun_" ++ ty) = some t) :
    (now - t < LOOTRUN_POOL_CACHE_TTL →
      fetch_lootrun_pool st now u ty = (some d, st)) ∧
    (now - t ≥ LOOTRUN_POOL_CACHE_TTL →
      (fetch_lootrun_pool st now u ty).1 = u ∧
      (u = none → (fetch_lootrun_pool st now u ty).2 = st) ∧
      (∀ d2, u = some d2 →
        (fetch_lootrun_pool st now u ty).2.cache.lookup ("lootrun_" ++ ty) = some d2 ∧
        (fetch_lootrun_pool st now u ty).2.time.lookup ("lootrun_" ++ ty) = some now)) := by
  simp only [fetch_lootrun_pool, hc, ht, Option.getD_some]
  constructor
  · intro hlt
    rw [if_pos hlt]
  · intro hge
    rw [if_neg (not_lt.mpr hge)]
    rcases u with _ | d2
    · exact ⟨rfl, fun _ => rfl, fun d2 h => by simp at h⟩
    · refine ⟨rfl, fun h => by simp at h, fun d3 h => ?_⟩
      obtain rfl : d2 = d3 := Option.some.inj h
      exact ⟨lookup_dictUpdate _ _ _, lookup_dictUpdate _ _ _⟩

/-- Witness for C9: a fresh read at time 100 returns the stored snapshot
untouched; a stale read at time 400 returns the upstream answer. -/
theorem C9_witness :
    fetch_lootrun_pool poolState0 100 (some respB) ("SE") = (some respA, poolState0) ∧
    (fetch_lootrun_pool poolState0 400 (some respB) ("SE")).1 = some respB :=
  ⟨(C9_pool_cache_ttl poolState0 0 100 respA ("SE") (some respB) (by decide) (by decide)).1
      (by decide),
   ((C9_pool_cache_ttl poolState0 0 400 respA ("SE") (some respB) (by decide) (by decide)).2
      (by decide)).1⟩

end Wynn
